import Mathlib

/-
Verification development for the gitlab-pipeline-to-confluence tool.

Shallow embedding of:
  - src/generator.py : generate_ascii_bar_chart, format_duration,
    generate_pipeline_section, find_and_replace_section
  - src/models.py    : data classes and the parse_* functions,
    parse_ref_with_regex
  - src/main.py      : the fetch/render/splice/write orchestration in main()

Strings are modelled as Lean String / List Char (Python indexes strings by
code points, as List Char does).  Machine integers do not occur: all counts
are non-negative integers in the source's data model.
-/

/-! ## Case folding

Python's re.IGNORECASE flag makes literal characters match case-insensitively.
The pipeline names and documents in scope are ASCII, so case folding is
modelled as ASCII lower-casing. -/

/-- ASCII lower-casing of a single character (code points 65-90 map to
97-122, everything else is fixed). -/
def lowerC (c : Char) : Char :=
  if 65 ≤ c.toNat ∧ c.toNat ≤ 90 then Char.ofNat (c.toNat + 32) else c

/-- Lower-casing of a list of characters. -/
def lowerL (s : List Char) : List Char := s.map lowerC

/-- Lower-casing of a string. -/
def lowerStr (s : String) : String := ⟨lowerL s.data⟩

/-- Case-insensitive prefix test. -/
def isPrefixCI (pat s : List Char) : Bool := (lowerL pat).isPrefixOf (lowerL s)

/-- Leftmost index at which `pat` occurs case-insensitively inside `s`,
if any.  This models re.search locating the leftmost position at which the
(re.escape-d, hence purely literal) header part of the pattern on
src/generator.py line 180 matches under re.IGNORECASE. -/
def findCI (pat : List Char) : List Char → Option Nat
  | [] => if isPrefixCI pat [] then some 0 else none
  | c :: rest =>
      if isPrefixCI pat (c :: rest) then some 0
      else (findCI pat rest).map (· + 1)

/-! ## The section splicer (src/generator.py lines 164-190)

The source builds the pattern

  (<h2>{re.escape(pipeline_name)}</h2>.*?)(<h2>|$)

and runs re.search with re.DOTALL | re.IGNORECASE.  Because the tail
.*?(<h2>|$) matches starting from every position ($ is always eventually
reachable with DOTALL), the whole pattern matches exactly at the leftmost
case-insensitive occurrence of the literal header <h2>name</h2>.  The lazy
.*? stops at the earliest following position where the second group
matches: either the literal <h2> (case-insensitive), or $ — which, without
re.MULTILINE, matches at the end of the string and also just before a
newline that ends the string.  match.end() is the end of the second group,
so it includes the four characters of a matched <h2>. -/

/-- The literal characters of the opening header tag. -/
def h2open : List Char := '<' :: 'h' :: '2' :: '>' :: []

/-- The literal characters of the closing header tag. -/
def h2close : List Char := '<' :: '/' :: 'h' :: '2' :: '>' :: []

/-- The escaped-literal header searched for by find_and_replace_section:
the characters of "<h2>" ++ name ++ "</h2>". -/
def headerFor (name : String) : List Char := h2open ++ name.data ++ h2close

/-- Number of characters consumed after the header by `.*?(<h2>|$)`:
the lazy scan stops at the earliest position where `<h2>` matches
case-insensitively (consuming its 4 characters, as match.end() does) or
where `$` matches (end of string, or just before a final newline,
consuming nothing). -/
def lazyEnd : List Char → Nat
  | [] => 0
  | c :: rest =>
      if isPrefixCI h2open (c :: rest) then 4
      else if c = '\n' ∧ rest = [] then 0
      else 1 + lazyEnd rest

/-- Embedding of find_and_replace_section (src/generator.py lines 164-190). -/
def find_and_replace_section (content pipeline_name new_section : String) : String :=
  let cs := content.data
  let header := headerFor pipeline_name
  match findCI header cs with
  | none => content ++ new_section
  | some i =>
      let end_pos := i + header.length + lazyEnd (cs.drop (i + header.length))
      if end_pos < cs.length then
        ⟨cs.take i⟩ ++ new_section ++ ⟨cs.drop end_pos⟩
      else
        ⟨cs.take i⟩ ++ new_section

/-! ## Data model (src/models.py lines 8-108)

The frozen dataclasses are modelled as Lean structures.  The
Optional[PipelineMetadata] / Optional[PipelineTestCounts] fields whose
__post_init__ replaces None by a default instance are modelled as plain
fields (the post-init step makes None observably equal to the default
instance), and the derived @property accessors become definitions.
Identifiers and counts are non-negative integers in the GitLab API, so
they are modelled as Nat; durations are modelled as Int as in the source's
type annotations. -/

structure PipelineMetadata where
  created_at : Option String := none
  updated_at : Option String := none
  duration : Option Int := none
deriving DecidableEq, Repr

structure PipelineInfo where
  id : Nat
  name : String
  status : String
  ref : String
  sha : String
  web_url : String
  metadata : PipelineMetadata := {}
deriving DecidableEq, Repr

/-- Derived property PipelineInfo.created_at (src/models.py lines 33-36). -/
def PipelineInfo.created_at (p : PipelineInfo) : Option String := p.metadata.created_at

/-- Derived property PipelineInfo.updated_at (src/models.py lines 38-41). -/
def PipelineInfo.updated_at (p : PipelineInfo) : Option String := p.metadata.updated_at

/-- Derived property PipelineInfo.duration (src/models.py lines 43-46). -/
def PipelineInfo.duration (p : PipelineInfo) : Option Int := p.metadata.duration

structure TestSummary where
  total_count : Nat := 0
  success_count : Nat := 0
  failed_count : Nat := 0
  skipped_count : Nat := 0
  error_count : Nat := 0
  total_time : Nat := 0
deriving DecidableEq, Repr

structure PipelineTestCounts where
  total_count : Nat := 0
  success_count : Nat := 0
  failed_count : Nat := 0
  skipped_count : Nat := 0
deriving DecidableEq, Repr

structure PipelineHistory where
  id : Nat
  status : String
  ref : String
  version : String := "N/A"
  url : String := ""
  created_at : Option String := none
  duration : Option Int := none
  web_url : Option String := none
  test_counts : PipelineTestCounts := {}
deriving DecidableEq, Repr

/-- Derived property PipelineHistory.total_count (src/models.py lines 90-93). -/
def PipelineHistory.total_count (p : PipelineHistory) : Nat := p.test_counts.total_count

/-- Derived property PipelineHistory.success_count (src/models.py lines 95-98). -/
def PipelineHistory.success_count (p : PipelineHistory) : Nat := p.test_counts.success_count

/-- Derived property PipelineHistory.failed_count (src/models.py lines 100-103). -/
def PipelineHistory.failed_count (p : PipelineHistory) : Nat := p.test_counts.failed_count

/-- Derived property PipelineHistory.skipped_count (src/models.py lines 105-108). -/
def PipelineHistory.skipped_count (p : PipelineHistory) : Nat := p.test_counts.skipped_count

/-! ## Raw records and the parsers (src/models.py lines 111-176)

A raw GitLab record is a JSON map with an arbitrary subset of the keys the
parsers read; dict.get(key, default) returns the default when the key is
absent.  A raw record is therefore modelled as a structure whose fields are
all Option, with none for an absent (or null) key, and .get becomes
Option.getD. -/

structure RawPipeline where
  id : Option Nat := none
  name : Option String := none
  status : Option String := none
  ref : Option String := none
  sha : Option String := none
  web_url : Option String := none
  created_at : Option String := none
  updated_at : Option String := none
  duration : Option Int := none
deriving DecidableEq, Repr

/-- The "total" sub-record of a raw test-report summary.  The "time" field
is a number of seconds; it is modelled as Nat. -/
structure RawTotals where
  count : Option Nat := none
  success : Option Nat := none
  failed : Option Nat := none
  skipped : Option Nat := none
  error : Option Nat := none
  time : Option Nat := none
deriving DecidableEq, Repr

structure RawTestSummary where
  total : Option RawTotals := none
deriving DecidableEq, Repr

/-- Embedding of parse_pipeline_info (src/models.py lines 111-132). -/
def parse_pipeline_info (pipeline : RawPipeline) : PipelineInfo :=
  { id := pipeline.id.getD 0
    name := pipeline.name.getD "unknown"
    status := pipeline.status.getD ""
    ref := pipeline.ref.getD ""
    sha := pipeline.sha.getD ""
    web_url := pipeline.web_url.getD ""
    metadata :=
      { created_at := pipeline.created_at
        updated_at := pipeline.updated_at
        duration := pipeline.duration } }

/-- Embedding of parse_test_summary (src/models.py lines 135-152). -/
def parse_test_summary (test_summary : RawTestSummary) : TestSummary :=
  let totals := test_summary.total.getD {}
  { total_count := totals.count.getD 0
    success_count := totals.success.getD 0
    failed_count := totals.failed.getD 0
    skipped_count := totals.skipped.getD 0
    error_count := totals.error.getD 0
    total_time := totals.time.getD 0 }

/-- The per-entry constructor used inside the list comprehension of
parse_pipelines (src/models.py lines 164-175); the fields not passed there
(version, url explicitly, test_counts by dataclass default) are fixed. -/
def histOfRaw (p : RawPipeline) : PipelineHistory :=
  { id := p.id.getD 0
    status := p.status.getD ""
    ref := p.ref.getD ""
    version := "N/A"
    url := ""
    created_at := p.created_at
    duration := p.duration
    web_url := p.web_url
    test_counts := {} }

/-- Embedding of parse_pipelines (src/models.py lines 155-176). -/
def parse_pipelines (pipelines : List RawPipeline) : List PipelineHistory :=
  pipelines.map histOfRaw

/-! ## The ASCII bar chart (src/generator.py lines 30-61)

get_value uses getattr(item, value_attr, 0).  The names of the integer
attributes of PipelineHistory yield their value; a name that is not an
attribute at all yields getattr's default 0; the names of the remaining
(string- or Optional-valued) attributes give values on which the source's
max()/division subsequently raises TypeError — those attribute names are
modelled as failure (none), as is the possibility of a None duration.
Bar length is int((val / max_val) * 20) on non-negative integers, i.e. the
floor of val * 20 / max_val (the counts in scope are far too small for
double-precision rounding of the quotient to cross an integer boundary). -/

/-- The value selected from one history entry by getattr(item, value_attr, 0)
(src/generator.py lines 45-46), restricted to the well-defined domain. -/
def getValue (d : PipelineHistory) (value_attr : String) : Option Nat :=
  match value_attr with
  | "total_count" => some d.total_count
  | "success_count" => some d.success_count
  | "failed_count" => some d.failed_count
  | "skipped_count" => some d.skipped_count
  | "id" => some d.id
  | "status" | "ref" | "version" | "url" | "created_at"
  | "duration" | "web_url" | "test_counts" => none
  | _ => some 0

/-- The status glyph of one chart line (src/generator.py line 58). -/
def statusIcon (status : String) : String :=
  if status = "success" then "✓" else if status = "failed" then "✗" else "○"

/-- Python's format spec {status:10}: pad on the right with spaces to a
minimum width of 10 (no truncation). -/
def padTo10 (s : String) : String := s ++ ⟨List.replicate (10 - s.length) ' '⟩

/-- The bar of one chart line: "█" * int((val / max_val) * 20). -/
def barOf (max_val val : Nat) : String := ⟨List.replicate (val * 20 / max_val) '█'⟩

/-- One line of the chart: f"{status_icon} {status:10} |{bar_str}| {val}"
(src/generator.py line 59). -/
def chartLine (max_val : Nat) (status : String) (val : Nat) : String :=
  statusIcon status ++ " " ++ padTo10 status ++ " |" ++ barOf max_val val ++ "| " ++ toString val

/-- Embedding of generate_ascii_bar_chart (src/generator.py lines 30-61);
none models the TypeError raised when value_attr selects a non-integer
value. -/
def generate_ascii_bar_chart (data : List PipelineHistory)
    (value_attr : String := "total_count") : Option String :=
  if data = [] then some "No data available"
  else do
    let vals ← data.mapM (fun d => getValue d value_attr)
    let max_val0 := vals.foldl max 0
    let max_val := if max_val0 = 0 then 1 else max_val0
    some (String.intercalate "\n"
      (data.map (fun d => chartLine max_val d.status ((getValue d value_attr).getD 0))))

/-! ## Duration formatting and the section renderer
(src/generator.py lines 64-161) -/

/-- Embedding of format_duration (src/generator.py lines 64-83) on its
typed domain Optional[int]; // and % are Python floor division and floor
modulus, i.e. Int.fdiv / Int.fmod.  (The except branch only concerns
untyped inputs and is unreachable for int/None arguments.) -/
def format_duration : Option Int → String
  | none => "N/A"
  | some seconds =>
      let mins := seconds.fdiv 60
      let remaining_secs := seconds.fmod 60
      if mins > 0 then toString mins ++ "m " ++ toString remaining_secs ++ "s"
      else toString seconds ++ "s"

/-- Embedding of generate_pipeline_section (src/generator.py lines
104-161).  The impure datetime.now().strftime(...) stamp is passed in as
the extra argument now; the f-string body is reproduced verbatim. -/
def generate_pipeline_section (pipeline_name : String) (pipeline_info : PipelineInfo)
    (test_summary : TestSummary) (recent_pipelines : List PipelineHistory)
    (now : String) : String :=
  let chart := (generate_ascii_bar_chart (recent_pipelines.take 10) "total_count").getD ""
  "<h2>" ++ pipeline_name ++ "</h2>\n\n<p>\n    <strong>Latest Pipeline Run:</strong>\n    <a href=\""
    ++ pipeline_info.web_url ++ "\">" ++ toString pipeline_info.id ++ "</a> |\n    Status: "
    ++ pipeline_info.status ++ " |\n    Duration: " ++ format_duration pipeline_info.duration
    ++ "\n</p>\n\n<h3>Test Results</h3>\n<table>\n    <tbody>\n        <tr>\n            <th>Total</th>\n            <th>Passed</th>\n            <th>Failed</th>\n            <th>Skipped</th>\n            <th>Errors</th>\n            <th>Time</th>\n        </tr>\n        <tr>\n            <td>"
    ++ toString test_summary.total_count
    ++ "</td>\n            <td style=\"background-color: #e8f5e9;\">"
    ++ toString test_summary.success_count
    ++ "</td>\n            <td style=\"background-color: #ffebee;\">"
    ++ toString test_summary.failed_count
    ++ "</td>\n            <td style=\"background-color: #fff3e0;\">"
    ++ toString test_summary.skipped_count
    ++ "</td>\n            <td>" ++ toString test_summary.error_count
    ++ "</td>\n            <td>" ++ format_duration (some (test_summary.total_time : Int))
    ++ "</td>\n        </tr>\n    </tbody>\n</table>\n\n<h3>Pipeline History (Last 10 Runs)</h3>\n<pre>"
    ++ chart ++ "</pre>\n\n<p><em>Last updated: " ++ now ++ "</em></p>\n"

/-! ## The sync orchestrator (src/main.py lines 191-241)

main() resolves configuration (lines 83-189, out of scope here) and then
performs the fetch / render / splice / write sequence.  Each collaborator
call is modelled by its outcome, an Except value in the environment; a
Python exception raised by a required step propagates out of main, which is
modelled by the run ending with that error.  The observable effects that
the contract speaks about are modelled as an ordered event list:

  - warnTestSummary e : the print("Warning: Could not fetch test summary:
    ...") on line 209 (the message formatting around the exception text is
    elided, the exception text e is kept);
  - warnSpliceMiss name : the print("Warning: Section ... not found ...")
    on line 233;
  - pageWrite id title content version : the confluence.update_page call
    on lines 237-239, recorded when the collaborator call returns
    (informational prints are not modelled).

The run returns the events that happened, and the error that escaped, if
any. -/

structure ConfluencePage where
  title : String
  content : String
  version : Nat
deriving DecidableEq, Repr

inductive SyncEvent where
  | warnTestSummary (e : String)
  | warnSpliceMiss (name : String)
  | pageWrite (pageId title content : String) (version : Nat)
deriving DecidableEq, Repr

/-- Whether an event is the document write. -/
def SyncEvent.isWrite : SyncEvent → Bool
  | .pageWrite _ _ _ _ => true
  | _ => false

/-- The outcomes of the collaborator calls made by one run of main(),
together with the configuration values the modelled code reads. -/
structure SyncEnv where
  getPipeline : Except String RawPipeline
  getTestReport : Except String RawTestSummary
  listPipelines : Except String (List RawPipeline)
  getPage : Except String ConfluencePage
  updatePage : Except String Unit
  pageId : String
  now : String
deriving Repr

/-- Embedding of the fetch / render / splice / write sequence of main()
(src/main.py lines 191-241). -/
def runSync (env : SyncEnv) : List SyncEvent × Option String :=
  match env.getPipeline with
  | .error e => ([], some e)
  | .ok pipeline =>
    let pipeline_info := parse_pipeline_info pipeline
    let pipeline_name := pipeline_info.name
    let (test_summary, ev1) :=
      match env.getTestReport with
      | .ok test_report => (parse_test_summary test_report, ([] : List SyncEvent))
      | .error e => (({} : TestSummary), [.warnTestSummary e])
    match env.listPipelines with
    | .error e => (ev1, some e)
    | .ok pipelines_data =>
      let recent_pipelines := parse_pipelines pipelines_data
      let section_content :=
        generate_pipeline_section pipeline_name pipeline_info test_summary
          recent_pipelines env.now
      match env.getPage with
      | .error e => (ev1, some e)
      | .ok page =>
        let new_content0 := find_and_replace_section page.content pipeline_name section_content
        let (new_content, ev2) :=
          if new_content0 = page.content then
            (page.content ++ section_content, ev1 ++ [.warnSpliceMiss pipeline_name])
          else (new_content0, ev1)
        match env.updatePage with
        | .error e => (ev2, some e)
        | .ok _ =>
          (ev2 ++ [.pageWrite env.pageId page.title new_content page.version], none)

/-! ## Ref parsing (src/models.py lines 235-260)

parse_ref_with_regex compiles a caller-supplied pattern and matches it
against the ref with re.match, which anchors the match at the start of the
string.  Patterns are modelled as abstract syntax trees (a syntactically
invalid pattern string, rejected by re.compile itself, is outside the
model), compiled.groupindex becomes the list of group names occurring in
the tree, and re.match becomes an engine that consumes a prefix of the
input.  The engine returns the number of consumed characters together with
the group bindings (a group that did not participate in the match has no
binding, modelling match.group(name) returning None); backtracking order
refinements of Python's engine are immaterial to the properties proved
here.  A star whose body matches without consuming input stops iterating,
as Python's engine also refuses empty-progress loops. -/

inductive Reg where
  | eps
  | chr (c : Char)
  | anyc
  | cat (a b : Reg)
  | alt (a b : Reg)
  | star (a : Reg)
  | group (n : String) (a : Reg)
deriving DecidableEq, Repr

/-- The named groups of a pattern (compiled.groupindex). -/
def Reg.groupNames : Reg → List String
  | .eps | .chr _ | .anyc => []
  | .cat a b | .alt a b => a.groupNames ++ b.groupNames
  | .star a => a.groupNames
  | .group n a => n :: a.groupNames

/-- Group bindings produced by a match: group name to captured characters. -/
abbrev Bindings := List (String × List Char)

/-- First binding of a group name, if any (match.group(name)). -/
def lookupB (b : Bindings) (n : String) : Option (List Char) :=
  match b with
  | [] => none
  | (k, v) :: rest => if k = n then some v else lookupB rest n

/-- Anchored prefix matching: the number of characters of s consumed by
one match of r starting at the beginning of s, with the group bindings,
or none if r does not match there.  Models re.compile(pattern).match(ref). -/
def matchPre : Reg → List Char → Option (Nat × Bindings)
  | .eps, _ => some (0, [])
  | .chr c, s =>
      match s with
      | [] => none
      | x :: _ => if x = c then some (1, []) else none
  | .anyc, s =>
      match s with
      | [] => none
      | _ :: _ => some (1, [])
  | .cat a b, s =>
      match matchPre a s with
      | none => none
      | some (n, g1) =>
        match matchPre b (s.drop n) with
        | none => none
        | some (m, g2) => some (n + m, g1 ++ g2)
  | .alt a b, s =>
      match matchPre a s with
      | some r => some r
      | none => matchPre b s
  | .group nm a, s =>
      match matchPre a s with
      | none => none
      | some (n, g) => some (n, (nm, s.take n) :: g)
  | .star a, s =>
      match matchPre a s with
      | none => some (0, [])
      | some (n, g) =>
        if _h : 0 < n ∧ n ≤ s.length then
          match matchPre (.star a) (s.drop n) with
          | none => some (n, g)
          | some (m, g2) => some (n + m, g ++ g2)
        else some (0, [])
termination_by r s => (sizeOf r, s.length)
decreasing_by
  all_goals simp_wf
  all_goals first
    | exact Prod.Lex.left _ _ (by omega)
    | (refine Prod.Lex.right _ ?_; omega)

/-- Embedding of parse_ref_with_regex (src/models.py lines 235-260).
The result's name component is Option String: none models Python's None
(a name group that did not participate in the match); the non-matching
branch returns the plain empty string.  The error value models the
ValueError("Regex must contain 'name' named group"). -/
def parse_ref_with_regex (ref : String) (pat : Reg) :
    Except String (Option String × String × Bool) :=
  if "name" ∈ pat.groupNames then
    match matchPre pat ref.data with
    | none => .ok (some "", "N/A", false)
    | some (_, b) =>
      let name := (lookupB b "name").map (fun l => (⟨l⟩ : String))
      let has_version := "version" ∈ pat.groupNames
      let version_match :=
        match lookupB b "version" with
        | some v => if has_version ∧ v ≠ [] then (⟨v⟩ : String) else "N/A"
        | none => "N/A"
      .ok (name, version_match, true)
  else .error "Regex must contain 'name' named group"

/-! ## Concrete fixtures for evaluated runs -/

/-- A raw pipeline record carrying only a name, as used by the concrete
sync run below. -/
def rawP : RawPipeline := { name := some "P" }

/-- A Confluence page without a section for pipeline "P". -/
def pageT : ConfluencePage := { title := "T", content := "<h1>T</h1>", version := 3 }

/-- A sync environment in which every collaborator call succeeds and the
fetched page contains no section for the fetched pipeline's name. -/
def envMiss : SyncEnv :=
  { getPipeline := .ok rawP
    getTestReport := .ok {}
    listPipelines := .ok []
    getPage := .ok pageT
    updatePage := .ok ()
    pageId := "789"
    now := "2024-01-01 00:00:00" }

/-! ## Helper lemmas -/

theorem char_toNat_ofNat_valid {n : Nat} (h : n.isValidChar) : (Char.ofNat n).toNat = n := by
  simp [Char.ofNat, h, Char.ofNatAux, Char.toNat, UInt32.toNat]

theorem lowerC_idem (c : Char) : lowerC (lowerC c) = lowerC c := by
  unfold lowerC
  split
  · rename_i h
    have hv : (c.toNat + 32).isValidChar := Or.inl (by omega)
    rw [char_toNat_ofNat_valid hv]
    have hno : ¬ (65 ≤ c.toNat + 32 ∧ c.toNat + 32 ≤ 90) := by omega
    rw [if_neg hno]
  · rfl

theorem lowerL_idem (s : List Char) : lowerL (lowerL s) = lowerL s := by
  simp [lowerL, List.map_map]
  exact fun c _ => lowerC_idem c

theorem isPrefixCI_lowerL (pat s : List Char) : isPrefixCI (lowerL pat) s = isPrefixCI pat s := by
  simp [isPrefixCI, lowerL_idem]

theorem findCI_lowerL (pat s : List Char) : findCI (lowerL pat) s = findCI pat s := by
  induction s with
  | nil => simp [findCI, isPrefixCI_lowerL]
  | cons c rest ih => simp [findCI, isPrefixCI_lowerL, ih]

theorem findCI_some_isPrefixCI (pat : List Char) :
    ∀ (s : List Char) (i : Nat), findCI pat s = some i → isPrefixCI pat (s.drop i) = true := by
  intro s
  induction s with
  | nil =>
    intro i h
    simp [findCI] at h
    obtain ⟨h1, h2⟩ := h
    simp [← h2, h1]
  | cons c rest ih =>
    intro i h
    by_cases hp : isPrefixCI pat (c :: rest) = true
    · simp [findCI, hp] at h
      simp [← h, hp]
    · simp [findCI, hp] at h
      obtain ⟨j, hj, hij⟩ := h
      subst hij
      simpa using ih j hj

theorem mapM_getValue_all_zero (attr : String) :
    ∀ (data : List PipelineHistory), (∀ d ∈ data, getValue d attr = some 0) →
      data.mapM (fun d => getValue d attr) = some (List.replicate data.length 0) := by
  intro data
  induction data with
  | nil => intro _; rfl
  | cons d rest ih =>
    intro h
    have hd : getValue d attr = some 0 := h d (by simp)
    have hrest := ih fun x hx => h x (by simp [hx])
    rw [List.mapM_cons, hd, hrest]
    simp [List.replicate_succ]

theorem foldl_max_replicate_zero : ∀ n : Nat, List.foldl max 0 (List.replicate n 0) = 0 := by
  intro n
  induction n with
  | zero => rfl
  | succ k ih => simpa [List.replicate_succ] using ih

theorem mapM_getValue_total_count :
    ∀ l : List PipelineHistory,
      l.mapM (fun d => getValue d "total_count") = some (l.map fun d => d.total_count) := by
  intro l
  induction l with
  | nil => rfl
  | cons d rest ih =>
    rw [List.mapM_cons]
    have hd : getValue d "total_count" = some d.total_count := rfl
    rw [hd, ih]
    rfl

theorem chart_total_count_lines :
    ∀ l : List PipelineHistory, l ≠ [] →
      ∃ lines : List String, lines.length = l.length
        ∧ generate_ascii_bar_chart l "total_count" = some (String.intercalate "\n" lines) := by
  intro l hne
  have hm2 : List.mapM.loop (fun d => getValue d "total_count") l []
      = some (l.map fun d => d.total_count) := mapM_getValue_total_count l
  refine ⟨l.map (fun d =>
      chartLine
        (if List.foldl max 0 (l.map fun d => d.total_count) = 0 then 1
         else List.foldl max 0 (l.map fun d => d.total_count))
        d.status ((getValue d "total_count").getD 0)), by simp, ?_⟩
  simp [generate_ascii_bar_chart, if_neg hne, hm2]

theorem matchPre_le (r : Reg) (s : List Char) :
    ∀ n g, matchPre r s = some (n, g) → n ≤ s.length := by
  induction r, s using matchPre.induct <;> intro n g h <;>
    rw [matchPre.eq_def] at h <;> simp_all <;> omega

/-! ## Claims -/

/-- C1: the claim states that when the document contains a matching header,
find_and_replace_section replaces exactly the span from that header up to,
but not including, the next header, leaving every byte after the old
section's end — including the following section's own opening header tag —
unchanged.  The code's match.end() is the end of the second regex group
(<h2>|$), so a matched following <h2> is consumed and lost: splicing key
"A" with "<h2>A</h2>z" into "<h2>A</h2>x<h2>B</h2>y" yields
"<h2>A</h2>zB</h2>y" — the "B" section's opening header tag is destroyed —
and not the claimed "<h2>A</h2>z<h2>B</h2>y". -/
theorem find_and_replace_section_consumes_next_header :
    find_and_replace_section "<h2>A</h2>x<h2>B</h2>y" "A" "<h2>A</h2>z" = "<h2>A</h2>zB</h2>y"
    ∧ find_and_replace_section "<h2>A</h2>x<h2>B</h2>y" "A" "<h2>A</h2>z"
      ≠ "<h2>A</h2>z<h2>B</h2>y" := by
  constructor
  · decide
  · decide

/-- C2: the claim states that find_and_replace_section is idempotent.  It
is not: after the first splice has consumed the following section's
opening <h2> tag, the second splice's lazy scan finds no further header,
reaches end-of-string, and deletes the mangled remainder of the following
section.  Splicing "<h2>A</h2>z" for key "A" into "<h2>A</h2>x<h2>B</h2>y"
once yields "<h2>A</h2>zB</h2>y"; splicing twice yields "<h2>A</h2>z". -/
theorem find_and_replace_section_not_idempotent :
    find_and_replace_section "<h2>A</h2>x<h2>B</h2>y" "A" "<h2>A</h2>z" = "<h2>A</h2>zB</h2>y"
    ∧ find_and_replace_section
        (find_and_replace_section "<h2>A</h2>x<h2>B</h2>y" "A" "<h2>A</h2>z") "A" "<h2>A</h2>z"
      = "<h2>A</h2>z"
    ∧ find_and_replace_section
        (find_and_replace_section "<h2>A</h2>x<h2>B</h2>y" "A" "<h2>A</h2>z") "A" "<h2>A</h2>z"
      ≠ find_and_replace_section "<h2>A</h2>x<h2>B</h2>y" "A" "<h2>A</h2>z" := by
  refine ⟨by decide, by decide, by decide⟩

/-- C3: the claim's first half holds: when the document contains no
case-insensitive occurrence of the literal header for the key, the splice
returns exactly doc ++ newSection.  The claim's second half is false on
the code: main() only prints its splice-miss warning when the splice left
the content unchanged (new_content == current_content, src/main.py line
232), but on a miss find_and_replace_section has already appended the
non-empty section, so the comparison never holds and no warning is
emitted: the concrete all-successful run below appends silently, its event
trace holding the page write and no warnSpliceMiss event. -/
theorem splice_miss_appends_without_warning :
    (∀ (content name sec : String), findCI (headerFor name) content.data = none →
        find_and_replace_section content name sec = content ++ sec)
    ∧ runSync envMiss =
        ([SyncEvent.pageWrite "789" "T"
            ("<h1>T</h1>" ++
              generate_pipeline_section "P" (parse_pipeline_info rawP) {} [] "2024-01-01 00:00:00")
            3],
          none) := by
  constructor
  · intro content name sec h
    simp [find_and_replace_section, h]
  · rfl

/-- Witness for the hypothesis of the first conjunct of the C3 theorem:
a concrete document with no header for the key is spliced to exactly
doc ++ newSection. -/
theorem splice_miss_appends_witness :
    find_and_replace_section "<p>q</p>" "P" "S" = "<p>q</p>" ++ "S" :=
  splice_miss_appends_without_warning.1 "<p>q</p>" "P" "S" (by decide)

/-- C4 counterexample: the claim states header matching is also
whitespace-insensitive.  It is not: the pattern is the re.escape-d literal
header, so surrounding whitespace inside the h2 element must match
exactly.  For the document "<h2> A </h2>x" and key "A" the splice appends
(the original header and old body survive untouched) instead of replacing
the section — replacement would have produced "<h2>A</h2>z". -/
theorem whitespace_variant_header_is_appended_not_replaced :
    find_and_replace_section "<h2> A </h2>x" "A" "<h2>A</h2>z" = "<h2> A </h2>x<h2>A</h2>z"
    ∧ find_and_replace_section "<h2> A </h2>x" "A" "<h2>A</h2>z" ≠ "<h2>A</h2>z" := by
  exact ⟨by decide, by decide⟩

/-- C4 amended: header matching is case-insensitive but
whitespace-sensitive (the header text must equal the key byte-for-byte up
to ASCII letter case), and the replacement section is always inserted
verbatim, as one contiguous factor of the result, with no re-casing:
lower-casing the key does not change the result of the splice; a header
differing from the key only in letter case is found and replaced; one
differing in surrounding whitespace is appended to. -/
theorem header_match_case_insensitive_replacement_verbatim :
    ∀ (content name sec : String),
      find_and_replace_section content (lowerStr name) sec
        = find_and_replace_section content name sec
      ∧ (∃ pre post : String, find_and_replace_section content name sec = pre ++ sec ++ post)
      ∧ find_and_replace_section "<h2>My-Pipeline</h2>old" "my-pipeline" "NEW" = "NEW"
      ∧ find_and_replace_section "<h2> A </h2>x" "A" "<h2>A</h2>z"
          = "<h2> A </h2>x" ++ "<h2>A</h2>z" := by
  intro content name sec
  refine ⟨?_, ?_, by decide, by decide⟩
  · have hopen : lowerL h2open = h2open := by decide
    have hclose : lowerL h2close = h2close := by decide
    have hhead : headerFor (lowerStr name) = lowerL (headerFor name) := by
      simp only [headerFor, lowerStr, lowerL, List.map_append]
      simp only [lowerL] at hopen hclose
      rw [hopen, hclose]
    have hlen : (lowerL (headerFor name)).length = (headerFor name).length := by
      simp [lowerL]
    simp only [find_and_replace_section, hhead, findCI_lowerL, hlen]
  · cases hf : findCI (headerFor name) content.data with
    | none =>
      refine ⟨content, "", ?_⟩
      simp [find_and_replace_section, hf]
    | some i =>
      by_cases hlt : i + (headerFor name).length +
          lazyEnd (content.data.drop (i + (headerFor name).length)) < content.length
      · refine ⟨⟨content.data.take i⟩, ⟨content.data.drop (i + (headerFor name).length +
          lazyEnd (content.data.drop (i + (headerFor name).length)))⟩, ?_⟩
        simp [find_and_replace_section, hf, hlt]
      · refine ⟨⟨content.data.take i⟩, "", ?_⟩
        simp [find_and_replace_section, hf, hlt]

/-- C10: because the source passes the pipeline name through re.escape,
the name contributes only an escaped literal to the pattern, so no name
can break pattern compilation (in the embedding the search is literal by
construction and total): a document with no case-insensitive literal
occurrence of the header is appended to, never matched; a found index is a
genuine literal occurrence of the header; and the metacharacter name "."
does not match the header "<h2>x</h2>" (which the unescaped pattern
"<h2>.</h2>" would match as a regex) while it does match a literal
"<h2>.</h2>" header. -/
theorem find_and_replace_section_name_is_literal :
    (∀ (content name sec : String), findCI (headerFor name) content.data = none →
        find_and_replace_section content name sec = content ++ sec)
    ∧ (∀ (pat s : List Char) (i : Nat),
        findCI pat s = some i → isPrefixCI pat (s.drop i) = true)
    ∧ find_and_replace_section "<h2>x</h2>y" "." "S" = "<h2>x</h2>y" ++ "S"
    ∧ find_and_replace_section "<h2>.</h2>y" "." "S" = "S" := by
  refine ⟨?_, ?_, by decide, by decide⟩
  · intro content name sec h
    simp [find_and_replace_section, h]
  · intro pat s i h
    exact findCI_some_isPrefixCI pat s i h

/-- Witness for the hypotheses of the C10 theorem: a name made of regex
metacharacters is treated literally — absent, it causes an append; found,
the occurrence is a literal one. -/
theorem find_and_replace_section_name_is_literal_witness :
    find_and_replace_section "<p>a(b</p>" "a(b+*|" "S" = "<p>a(b</p>" ++ "S"
    ∧ isPrefixCI (headerFor ".") ("<h2>.</h2>y".data.drop 0) = true :=
  ⟨find_and_replace_section_name_is_literal.1 "<p>a(b</p>" "a(b+*|" "S" (by decide),
   find_and_replace_section_name_is_literal.2.1 (headerFor ".") "<h2>.</h2>y".data 0 (by decide)⟩

/-- C7: the three parsers are total Lean functions over raw records with
an arbitrary subset of keys present (absent keys are none), so no
well-formed partial record can abort a parse, and every absent field of
the result equals its documented default: id 0, name "unknown", status /
ref / sha / web_url "", timestamps and duration None for
parse_pipeline_info; all counts and the time 0 for parse_test_summary
(with or without the "total" sub-record); and for parse_pipelines a
one-to-one parse whose entries default id to 0, status and ref to "",
version to "N/A", url to "", timestamps/duration/web_url to None and the
test counts to zero. -/
theorem parsers_total_with_defaults :
    ∀ (p : RawPipeline) (t : RawTotals) (rs : List RawPipeline),
      (parse_pipeline_info { p with id := none }).id = 0
      ∧ (parse_pipeline_info { p with name := none }).name = "unknown"
      ∧ (parse_pipeline_info { p with status := none }).status = ""
      ∧ (parse_pipeline_info { p with ref := none }).ref = ""
      ∧ (parse_pipeline_info { p with sha := none }).sha = ""
      ∧ (parse_pipeline_info { p with web_url := none }).web_url = ""
      ∧ (parse_pipeline_info { p with created_at := none }).created_at = none
      ∧ (parse_pipeline_info { p with updated_at := none }).updated_at = none
      ∧ (parse_pipeline_info { p with duration := none }).duration = none
      ∧ parse_test_summary { total := none } = ({} : TestSummary)
      ∧ (parse_test_summary { total := some { t with count := none } }).total_count = 0
      ∧ (parse_test_summary { total := some { t with success := none } }).success_count = 0
      ∧ (parse_test_summary { total := some { t with failed := none } }).failed_count = 0
      ∧ (parse_test_summary { total := some { t with skipped := none } }).skipped_count = 0
      ∧ (parse_test_summary { total := some { t with error := none } }).error_count = 0
      ∧ (parse_test_summary { total := some { t with time := none } }).total_time = 0
      ∧ (parse_pipelines rs).length = rs.length
      ∧ (histOfRaw { p with id := none }).id = 0
      ∧ (histOfRaw { p with status := none }).status = ""
      ∧ (histOfRaw { p with ref := none }).ref = ""
      ∧ (histOfRaw p).version = "N/A"
      ∧ (histOfRaw p).url = ""
      ∧ (histOfRaw { p with created_at := none }).created_at = none
      ∧ (histOfRaw { p with duration := none }).duration = none
      ∧ (histOfRaw { p with web_url := none }).web_url = none
      ∧ (histOfRaw p).test_counts = ({} : PipelineTestCounts) := by
  intro p t rs
  refine ⟨rfl, rfl, rfl, rfl, rfl, rfl, rfl, rfl, rfl, rfl, rfl, rfl, rfl, rfl, rfl, rfl,
    ?_, rfl, rfl, rfl, rfl, rfl, rfl, rfl, rfl, rfl⟩
  simp [parse_pipelines]

/-- C8: generate_ascii_bar_chart never fails on degenerate input: the
empty list returns exactly the literal "No data available" (for every
value_attr), and for a non-empty list whose selected values are all zero
the maximum is replaced by 1, so the chart is the per-entry lines rendered
at max_val = 1 and value 0 — whose bar, barOf 1 0, is the empty string —
with the raw value 0 still printed by chartLine. -/
theorem chart_degenerate_inputs :
    (∀ attr : String, generate_ascii_bar_chart [] attr = some "No data available")
    ∧ (∀ (data : List PipelineHistory) (attr : String), data ≠ [] →
        (∀ d ∈ data, getValue d attr = some 0) →
        generate_ascii_bar_chart data attr
          = some (String.intercalate "\n" (data.map fun d => chartLine 1 d.status 0)))
    ∧ barOf 1 0 = "" := by
  refine ⟨fun attr => rfl, ?_, rfl⟩
  intro data attr hne hz
  have hm := mapM_getValue_all_zero attr data hz
  have hlines : (data.map fun d => chartLine 1 d.status ((getValue d attr).getD 0))
      = data.map fun d => chartLine 1 d.status 0 := by
    refine List.map_congr_left fun d hd => ?_
    rw [hz d hd]
    rfl
  have hm2 : List.mapM.loop (fun d => getValue d attr) data [] = some (List.replicate data.length 0) := hm
  simp [generate_ascii_bar_chart, if_neg hne, hm2, foldl_max_replicate_zero, hlines]

/-- Witness for the C8 theorem's hypotheses: a singleton history whose
total test count is zero renders as one zero-bar line. -/
theorem chart_degenerate_inputs_witness :
    generate_ascii_bar_chart [{ id := 7, status := "failed", ref := "main" }] "total_count"
      = some (String.intercalate "\n"
          ([({ id := 7, status := "failed", ref := "main" } : PipelineHistory)].map
            fun d => chartLine 1 d.status 0)) :=
  chart_degenerate_inputs.2.1 [{ id := 7, status := "failed", ref := "main" }] "total_count"
    (by simp) (by decide)

/-- C9: the chart embedded in a rendered section is computed from at most
the first 10 history entries (the caller's cap, hard-coded as the [:10]
slice on src/generator.py line 124), so the whole rendered section is
unchanged when the history list is cut to its first 10 entries — the
reducer does not assume the input is already capped — and for a non-empty
history the consumed prefix renders as exactly min 10 (length of history)
chart lines. -/
theorem section_chart_uses_first_ten :
    ∀ (name : String) (info : PipelineInfo) (ts : TestSummary)
      (hist : List PipelineHistory) (now : String),
      generate_pipeline_section name info ts hist now
        = generate_pipeline_section name info ts (hist.take 10) now
      ∧ (hist ≠ [] → ∃ lines : List String, lines.length = min 10 hist.length
          ∧ generate_ascii_bar_chart (hist.take 10) "total_count"
              = some (String.intercalate "\n" lines)) := by
  intro name info ts hist now
  constructor
  · simp [generate_pipeline_section, List.take_take]
  · intro hne
    have hne10 : hist.take 10 ≠ [] := by
      simp [List.take_eq_nil_iff]
      exact fun h => absurd h hne
    obtain ⟨lines, hlen, hchart⟩ := chart_total_count_lines (hist.take 10) hne10
    exact ⟨lines, by simpa [List.length_take] using hlen, hchart⟩

/-- Witness for the hypothesis of the C9 theorem: a 12-entry history
renders through the section path as the chart of its first 10 entries,
with 10 lines. -/
theorem section_chart_uses_first_ten_witness :
    ∃ lines : List String,
      lines.length = min 10 (List.replicate 12
        ({ id := 1, status := "success", ref := "m" } : PipelineHistory)).length
      ∧ generate_ascii_bar_chart
          ((List.replicate 12 ({ id := 1, status := "success", ref := "m" } : PipelineHistory)).take 10)
          "total_count"
        = some (String.intercalate "\n" lines) :=
  (section_chart_uses_first_ten "P" { id := 1, name := "P", status := "", ref := "", sha := "", web_url := "" }
      {} (List.replicate 12 { id := 1, status := "success", ref := "m" }) "now").2
    (by simp)

/-- C5: the sync run's error contract.  A failing pipeline fetch, history
fetch or document read aborts the run with the upstream error surfaced and
an empty event trace — in particular no document write.  A failing
test-summary fetch is non-fatal: the run is exactly the run with an
all-defaults (zero-valued) test report substituted, with a warning event
prepended.  A failing document write surfaces the upstream error and
records no completed write.  And an all-successful run fails nowhere and
performs exactly one write, carrying the page title and the version read
in this run. -/
theorem sync_error_contract :
    ∀ (e : String) (raw : RawPipeline) (tr : RawTestSummary) (pd : List RawPipeline)
      (pg : ConfluencePage) (T : Except String RawTestSummary)
      (L : Except String (List RawPipeline)) (P : Except String ConfluencePage)
      (U : Except String Unit) (pid now : String),
      runSync ⟨.error e, T, L, P, U, pid, now⟩ = ([], some e)
      ∧ runSync ⟨.ok raw, .error e, L, P, U, pid, now⟩
          = (SyncEvent.warnTestSummary e
              :: (runSync ⟨.ok raw, .ok { total := none }, L, P, U, pid, now⟩).1,
             (runSync ⟨.ok raw, .ok { total := none }, L, P, U, pid, now⟩).2)
      ∧ runSync ⟨.ok raw, .ok tr, .error e, P, U, pid, now⟩ = ([], some e)
      ∧ runSync ⟨.ok raw, .ok tr, .ok pd, .error e, U, pid, now⟩ = ([], some e)
      ∧ (runSync ⟨.ok raw, .ok tr, .ok pd, .ok pg, .error e, pid, now⟩).2 = some e
      ∧ (runSync ⟨.ok raw, .ok tr, .ok pd, .ok pg, .error e, pid, now⟩).1.filter
          (fun ev => ev.isWrite) = []
      ∧ (runSync ⟨.ok raw, .ok tr, .ok pd, .ok pg, .ok (), pid, now⟩).2 = none
      ∧ ∃ c, (runSync ⟨.ok raw, .ok tr, .ok pd, .ok pg, .ok (), pid, now⟩).1.filter
          (fun ev => ev.isWrite) = [SyncEvent.pageWrite pid pg.title c pg.version] := by
  intro e raw tr pd pg T L P U pid now
  have hts : parse_test_summary { total := none } = ({} : TestSummary) := rfl
  refine ⟨rfl, ?_, rfl, rfl, rfl, ?_, ?_, ?_⟩
  · cases L with
    | error eL => rfl
    | ok pd2 =>
      cases P with
      | error eP => rfl
      | ok pg2 =>
        cases U with
        | error eU =>
          simp only [runSync, hts]
          split_ifs <;> rfl
        | ok u =>
          simp only [runSync, hts]
          split_ifs <;> rfl
  · simp only [runSync]
    split_ifs <;> rfl
  · rfl
  · simp only [runSync]
    split_ifs <;> exact ⟨_, rfl⟩

/-- C6: parse_ref_with_regex signals its configuration error exactly when
the pattern has no "name" group, for every reference string; with a "name"
group present it is total (always returns a result): a non-matching
reference yields (the empty name, "N/A", false); a match under a pattern
without a "version" group, or whose "version" group captured the empty
string, yields version "N/A"; and the underlying matching is anchored —
a match consumes a prefix of the reference (at most its length), starting
at the beginning. -/
theorem parse_ref_contract :
    ∀ (ref : String) (pat : Reg),
      ((∃ err, parse_ref_with_regex ref pat = .error err) ↔ "name" ∉ pat.groupNames)
      ∧ ("name" ∈ pat.groupNames → ∃ r, parse_ref_with_regex ref pat = .ok r)
      ∧ ("name" ∈ pat.groupNames → matchPre pat ref.data = none →
          parse_ref_with_regex ref pat = .ok (some "", "N/A", false))
      ∧ (∀ n b, "name" ∈ pat.groupNames → matchPre pat ref.data = some (n, b) →
          "version" ∉ pat.groupNames →
          parse_ref_with_regex ref pat
            = .ok ((lookupB b "name").map (fun l => (⟨l⟩ : String)), "N/A", true))
      ∧ (∀ n b, "name" ∈ pat.groupNames → matchPre pat ref.data = some (n, b) →
          lookupB b "version" = some [] →
          parse_ref_with_regex ref pat
            = .ok ((lookupB b "name").map (fun l => (⟨l⟩ : String)), "N/A", true))
      ∧ (∀ n b, matchPre pat ref.data = some (n, b) → n ≤ ref.data.length) := by
  intro ref pat
  refine ⟨⟨?_, ?_⟩, ?_, ?_, ?_, ?_, ?_⟩
  · rintro ⟨err, heq⟩
    by_cases h : "name" ∈ pat.groupNames
    · exfalso
      unfold parse_ref_with_regex at heq
      rw [if_pos h] at heq
      cases hm : matchPre pat ref.data <;> rw [hm] at heq <;> simp at heq
    · exact h
  · intro h
    exact ⟨"Regex must contain 'name' named group", by simp [parse_ref_with_regex, h]⟩
  · intro h
    unfold parse_ref_with_regex
    rw [if_pos h]
    cases hm : matchPre pat ref.data with
    | none => exact ⟨_, rfl⟩
    | some p => exact ⟨_, rfl⟩
  · intro h hm
    simp [parse_ref_with_regex, h, hm]
  · intro n b h hm hv
    simp only [parse_ref_with_regex, if_pos h, hm]
    cases hl : lookupB b "version" with
    | none => rfl
    | some v => simp [hv]
  · intro n b h hm hv
    simp only [parse_ref_with_regex, if_pos h, hm, hv]
    simp
  · intro n b hm
    exact matchPre_le pat ref.data n b hm

/-- Witness for the hypotheses of the C6 theorem: the single-group pattern
(?P&lt;name&gt;a) does not match the ref "b" (so the total fallback tuple is
returned — note the occurrence of a at position 1 in "ba" would not count
either, matching being anchored), and its match on "a" consumes no more
than the ref's length. -/
theorem parse_ref_contract_witness :
    parse_ref_with_regex "b" (Reg.group "name" (Reg.chr 'a')) = .ok (some "", "N/A", false)
    ∧ 1 ≤ "a".data.length :=
  ⟨(parse_ref_contract "b" (Reg.group "name" (Reg.chr 'a'))).2.2.1 (by decide)
      (by simp [matchPre]),
   (parse_ref_contract "a" (Reg.group "name" (Reg.chr 'a'))).2.2.2.2.2 1 [("name", ['a'])]
      (by simp [matchPre])⟩
